import Mathlib

/-!
Shallow embedding of the ms-enclave sandbox orchestration layer
(`src/ms_enclave/sandbox/...`), covering the data-model enumerations, the
Docker sandbox lifecycle (`start`, `cleanup`, `execute_command`,
`_create_container`), the Jupyter notebook sandbox
(`execute_python_code`, `cleanup`) and the `python_executor` tool.

External effects (the Docker engine, the kernel-gateway websocket, wall-clock
time) are modelled by explicit environment records that list the outcome of
each engine call: an `Option String` is `some msg` when the call raises an
exception with message `msg`, `none` when it succeeds.  Python exceptions are
modelled with `Except String`; Python `None` with `Option`; Python truthiness
of optional strings / numbers / collections with explicit `pyTruthy*`
functions mirroring the source's `if self.config.x:` guards.
-/

namespace MsEnclave

/-- `ExecutionStatus` from `src/ms_enclave/sandbox/model/base.py`. -/
inductive ExecutionStatus
  | success
  | error
  | timeout
  | cancelled
deriving DecidableEq, Repr

/-- `SandboxStatus` from `src/ms_enclave/sandbox/model/base.py`. -/
inductive SandboxStatus
  | initializing
  | running
  | stopping
  | stopped
  | error
  | cleanup
deriving DecidableEq, Repr

/-- `SandboxType` from `src/ms_enclave/sandbox/model/base.py` (lines 17-20):
the enumeration defines exactly the members `DOCKER = 'docker'` and
`DUMMY = 'dummy'`. -/
inductive SandboxType
  | docker
  | dummy
deriving DecidableEq, Repr

/-- The attribute names of the members defined by the `SandboxType`
enumeration in `src/ms_enclave/sandbox/model/base.py`. -/
def sandboxTypeMemberNames : List String := ["DOCKER", "DUMMY"]

/-- The string values of the `SandboxType` members. -/
def SandboxType.value : SandboxType → String
  | .docker => "docker"
  | .dummy => "dummy"

/-- The `SandboxType` attribute names referenced by the `@register_sandbox`
decorators on the two sandbox implementations:
`@register_sandbox(SandboxType.DOCKER)` in
`src/ms_enclave/sandbox/boxes/docker_sandbox.py` and
`@register_sandbox(SandboxType.DOCKER_NOTEBOOK)` in
`src/ms_enclave/sandbox/boxes/docker_notebook.py` (line 20). -/
def registeredSandboxKeyAttrs : List String := ["DOCKER", "DOCKER_NOTEBOOK"]

/-- `CommandResult` from the data model (§3 of the design): verbatim command,
execution status, exit code (−1 for non-exit failures), stdout, stderr. -/
structure CommandResult where
  command : String
  status : ExecutionStatus
  exit_code : Int
  stdout : String
  stderr : String
deriving DecidableEq, Repr

/-- Python truthiness of an optional string: `None` and `''` are falsy. -/
def pyTruthyStr : Option String → Bool
  | none => false
  | some s => !s.isEmpty

/-- Python truthiness of an optional number: `None` and `0` are falsy. -/
def pyTruthyRat : Option ℚ → Bool
  | none => false
  | some q => decide (q ≠ 0)

/-- `timeout or 30` — the actual deadline used by `execute_command` and
`execute_python_code`: Python `or` replaces both `None` and the falsy `0`
by the default `30`. -/
def actualTimeout : Option Nat → Nat
  | none => 30
  | some t => if t = 0 then 30 else t

/-- Outcome of the engine's `exec_run` call (`demux=True`, `stream=False`):
it either raises, or returns an exit code together with the demuxed
`(stdout_bytes, stderr_bytes)` pair, either side possibly `None`. -/
inductive ExecOutcome
  | raises (msg : String)
  | returns (exit_code : Int) (out_stdout : Option String) (out_stderr : Option String)
deriving DecidableEq, Repr

/-- Environment of one `execute_command` call: how long the blocking
`exec_run` takes (seconds, against the `asyncio.wait_for` wall) and what it
produces if allowed to finish. -/
structure ExecEnv where
  duration : Nat
  outcome : ExecOutcome
deriving DecidableEq, Repr

/-- `DockerSandbox.execute_command`
(`src/ms_enclave/sandbox/boxes/docker_sandbox.py`, lines 106-142).
`container` is the sandbox's container handle (`None` when absent).
A `RuntimeError` escaping to the caller is `.error`; every other path is
caught by the source's `except` clauses and returns a `CommandResult`. -/
def executeCommand (container : Option Nat) (command : String)
    (timeout : Option Nat) (env : ExecEnv) : Except String CommandResult :=
  match container with
  | none => .error "Container is not running"
  | some _ =>
    let t := actualTimeout timeout
    if t ≤ env.duration then
      .ok { command := command, status := .timeout, exit_code := -1, stdout := "",
            stderr := "Command timed out after " ++ toString t ++ " seconds" }
    else
      match env.outcome with
      | .raises msg =>
        .ok { command := command, status := .error, exit_code := -1, stdout := "",
              stderr := msg }
      | .returns code o1 o2 =>
        .ok { command := command,
              status := if code = 0 then .success else .error,
              exit_code := code,
              stdout := o1.getD "",
              stderr := o2.getD "" }

/-- State of a `DockerSandbox` relevant to the lifecycle claims: status,
the `error` and `container_id` entries of the metadata map, the engine
client handle and the container handle. -/
structure DockerState where
  status : SandboxStatus
  metadataError : Option String
  metadataContainerId : Option Nat
  client : Bool
  container : Option Nat
deriving DecidableEq, Repr

/-- Environment of one `DockerSandbox.start` call: for each step, whether the
underlying engine call raises (`some msg`) or succeeds (`none`), plus the id
of the container the engine would create and whether the started container
reaches the `running` state within the 30 s poll. -/
structure StartEnv where
  clientInitError : Option String
  imageExists : Bool
  pullError : Option String
  createError : Option String
  newContainerId : Nat
  startError : Option String
  becomesRunning : Bool
  initToolsError : Option String
deriving DecidableEq, Repr

/-- `DockerSandbox._ensure_image_exists`: if the image is absent, attempt a
pull; a failing pull raises `RuntimeError('Failed to pull image ...')`.
Returns the raised message, or `none` on success. -/
def ensureImageError (image : String) (env : StartEnv) : Option String :=
  if env.imageExists then none
  else
    match env.pullError with
    | none => none
    | some e => some ("Failed to pull image " ++ image ++ ": " ++ e)

/-- `DockerSandbox._start_container`: `container.start()` may raise, and the
500 ms poll loop raises after 30 s if the container never reports `running`;
both are wrapped into `RuntimeError('Failed to start container: ...')`. -/
def startContainerError (env : StartEnv) : Option String :=
  match env.startError with
  | some e => some ("Failed to start container: " ++ e)
  | none =>
    if env.becomesRunning then none
    else some ("Failed to start container: Container failed to start within timeout")

/-- The `except` handler of `DockerSandbox.start`: set status `error` and
store the reason in `metadata['error']`; nothing is released. -/
def startFail (s : DockerState) (e : String) : DockerState :=
  { s with status := .error, metadataError := some e }

/-- `DockerSandbox.start` (`src/ms_enclave/sandbox/boxes/docker_sandbox.py`,
lines 39-62): set status `initializing`, acquire the engine client, ensure
the image, create the container (recording `metadata['container_id']`),
start it, bind tools, then set status `running`; any exception is caught by
the single `except` clause, which records status `error` and the message in
metadata. -/
def startSandbox (s : DockerState) (image : String) (env : StartEnv) : DockerState :=
  let s1 := { s with status := SandboxStatus.initializing }
  match env.clientInitError with
  | some e => startFail s1 e
  | none =>
    let s2 := { s1 with client := true }
    match ensureImageError image env with
    | some e => startFail s2 e
    | none =>
      match env.createError with
      | some e => startFail s2 ("Failed to create container: " ++ e)
      | none =>
        let s3 := { s2 with container := some env.newContainerId,
                            metadataContainerId := some env.newContainerId }
        match startContainerError env with
        | some e => startFail s3 e
        | none =>
          match env.initToolsError with
          | some e => startFail s3 e
          | none => { s3 with status := SandboxStatus.running }

/-- Whether some step of `start` fails in the given environment. -/
def startFails (image : String) (env : StartEnv) : Bool :=
  env.clientInitError.isSome || (ensureImageError image env).isSome
    || env.createError.isSome || (startContainerError env).isSome
    || env.initToolsError.isSome

/-- An external call made during cleanup, recorded so that idempotence
("a second call performs no engine operations") can be stated. -/
inductive EngineOp
  | removeForce (c : Nat)
  | stopContainer (c : Nat) (grace : Nat)
  | closeClient
  | wsClose
  | kernelDelete (k : String)
deriving DecidableEq, Repr

/-- Environment of one `cleanup` call: whether each of the underlying calls
raises.  Every one of these errors is caught and logged by the source, so
they influence neither the resulting state nor the return path. -/
structure CleanupEnv where
  removeError : Option String
  stopError : Option String
  closeError : Option String
  wsCloseError : Option String
  kernelDeleteError : Option String
deriving DecidableEq, Repr

/-- `DockerSandbox.cleanup`
(`src/ms_enclave/sandbox/boxes/docker_sandbox.py`, lines 75-100).  If a
container handle is present: remove it with force when `remove_on_exit`,
otherwise stop it with 5 s grace; errors are logged and the `finally` clause
clears the handle either way.  Then close the engine client (errors
swallowed) and clear it.  The whole body is wrapped in a final
try/except, so no exception escapes: the `Except` result is always `.ok`,
carrying the new state and the engine calls performed. -/
def dockerCleanup (removeOnExit : Bool) (s : DockerState) (_env : CleanupEnv) :
    Except String (DockerState × List EngineOp) :=
  let step1 : DockerState × List EngineOp :=
    match s.container with
    | none => (s, [])
    | some c =>
      ({ s with container := none },
       if removeOnExit then [EngineOp.removeForce c] else [EngineOp.stopContainer c 5])
  let step2 : DockerState × List EngineOp :=
    if step1.1.client then
      ({ step1.1 with client := false }, step1.2 ++ [EngineOp.closeClient])
    else step1
  .ok step2

/-- State of a `JupyterDockerSandbox`: the base `DockerSandbox` state plus
the kernel id, the websocket handle and the gateway base URL set up during
start. -/
structure NotebookState extends DockerState where
  kernelId : Option String
  ws : Option Nat
  baseUrl : Option String
deriving DecidableEq, Repr

/-- The Jupyter-specific prefix of `JupyterDockerSandbox.cleanup`: close the
websocket (best-effort) and clear `ws`; if `kernel_id` and `base_url` are
truthy, `DELETE` the kernel (best-effort) and clear `kernel_id`.  Raised
errors are swallowed by the source's nested try/except clauses, so only the
state change and the calls performed are visible. -/
def jupyterCleanupPart (s : NotebookState) : NotebookState × List EngineOp :=
  let step1 : NotebookState × List EngineOp :=
    match s.ws with
    | none => (s, [])
    | some _ => ({ s with ws := none }, [EngineOp.wsClose])
  if pyTruthyStr step1.1.kernelId && pyTruthyStr step1.1.baseUrl then
    match step1.1.kernelId with
    | some k => ({ step1.1 with kernelId := none }, step1.2 ++ [EngineOp.kernelDelete k])
    | none => step1
  else step1

/-- `JupyterDockerSandbox.cleanup`
(`src/ms_enclave/sandbox/boxes/docker_notebook.py`, lines 251-275): run the
Jupyter part (websocket close, kernel delete), then the parent
`DockerSandbox.cleanup`. -/
def notebookCleanup (removeOnExit : Bool) (s : NotebookState) (env : CleanupEnv) :
    Except String (NotebookState × List EngineOp) :=
  let step2 := jupyterCleanupPart s
  match dockerCleanup removeOnExit step2.1.toDockerState env with
  | .ok (d, ops3) => .ok ({ step2.1 with toDockerState := d }, step2.2 ++ ops3)
  | .error e => .error e

/-- Body of a Jupyter wire-format message as consumed by the collection loop
of `execute_python_code`: `stream` text, `execute_result` with its
`text/plain` rendering (the source's `content['data'].get('text/plain', '')`),
an `error` with its traceback lines, a kernel `status` with its
`execution_state`, or any other message type (ignored). -/
inductive KBody
  | stream (text : String)
  | execResult (textPlain : String)
  | errorMsg (traceback : List String)
  | statusMsg (executionState : String)
  | otherMsg
deriving DecidableEq, Repr

/-- A received kernel message: the `parent_header.msg_id` (if any) and the
body. -/
structure KernelMsg where
  parentMsgId : Option String
  body : KBody
deriving DecidableEq, Repr

/-- One `ws.recv()` outcome: a message, or an exception (connection error,
malformed JSON, missing key) — the source catches the latter inside the loop
and breaks. -/
inductive RecvEvent
  | msg (m : KernelMsg)
  | recvRaises (e : String)
deriving DecidableEq, Repr

/-- Accumulator of the collection loop: the `outputs` list, the last
`execute_result` text, and the error flag. -/
structure CollectState where
  outputs : List String
  result : Option String
  errorOccurred : Bool
deriving DecidableEq, Repr

/-- The initial accumulator of the collection loop. -/
def initCollect : CollectState := { outputs := [], result := none, errorOccurred := false }

/-- How the collection loop of `execute_python_code` terminated: the
`while time.time() - start_time < actual_timeout` guard failed (deadline),
`ws.recv()` raised (the inner `except ... break`), or the kernel reported
`execution_state == 'idle'`. -/
inductive LoopExit
  | deadline
  | recvError
  | idle
deriving DecidableEq, Repr

/-- The message-collection loop of `JupyterDockerSandbox.execute_python_code`
(`src/ms_enclave/sandbox/boxes/docker_notebook.py`, lines 180-209).  Each
event is tagged with the elapsed time (seconds since `start_time`) observed
at the top of the iteration that would receive it; an empty remainder means
no further message arrives before the deadline, so the guard eventually
fails.  Messages whose `parent_header.msg_id` differs from `msgId` are
skipped; `stream` appends text, `execute_result` records the `text/plain`
data, `error` sets the flag and appends the joined traceback, and `status`
with `execution_state == 'idle'` breaks the loop. -/
def collectLoop (msgId : String) (deadline : Nat) :
    List (Nat × RecvEvent) → CollectState → CollectState × LoopExit
  | [], st => (st, LoopExit.deadline)
  | (t, ev) :: rest, st =>
    if deadline ≤ t then (st, LoopExit.deadline)
    else
      match ev with
      | .recvRaises _ => (st, LoopExit.recvError)
      | .msg m =>
        if m.parentMsgId ≠ some msgId then collectLoop msgId deadline rest st
        else
          match m.body with
          | .stream txt =>
            collectLoop msgId deadline rest { st with outputs := st.outputs ++ [txt] }
          | .execResult r =>
            collectLoop msgId deadline rest { st with result := some r }
          | .errorMsg tb =>
            collectLoop msgId deadline rest
              { st with errorOccurred := true,
                        outputs := st.outputs ++ [String.intercalate "\n" tb] }
          | .statusMsg es =>
            if es = "idle" then (st, LoopExit.idle)
            else collectLoop msgId deadline rest st
          | .otherMsg => collectLoop msgId deadline rest st

/-- Environment of one `execute_python_code` call: the generated `msg_id`,
whether sending the `execute_request` frame raises, and the timed incoming
events on the websocket. -/
structure NotebookExecEnv where
  msgId : String
  sendError : Option String
  events : List (Nat × RecvEvent)
deriving DecidableEq, Repr

/-- The result assembly of `execute_python_code`: join the outputs and, when
`result` is truthy, append `"\nResult: " ++ result`. -/
def assembleOutput (st : CollectState) : String :=
  let outputText := String.join st.outputs
  match st.result with
  | some r => if r.isEmpty then outputText else outputText ++ "\nResult: " ++ r
  | none => outputText

/-- `JupyterDockerSandbox.execute_python_code`
(`src/ms_enclave/sandbox/boxes/docker_notebook.py`, lines 162-221).  Raises
`RuntimeError` when the websocket or kernel id is not set (`.error`).
Otherwise sends the execute request (a raising send is caught by the outer
`except`, yielding an `error` result), runs the collection loop, and builds
a `CommandResult` whose status and exit code depend only on the error flag.
Returns the (unchanged) sandbox state together with the outcome. -/
def executePythonCode (s : NotebookState) (code : String) (timeout : Option Nat)
    (env : NotebookExecEnv) : NotebookState × Except String CommandResult :=
  if s.ws.isNone || !(pyTruthyStr s.kernelId) then
    (s, .error "Jupyter kernel is not ready")
  else
    match env.sendError with
    | some e =>
      (s, .ok { command := code, status := .error, exit_code := 1, stdout := "",
                stderr := "Execution failed: " ++ e })
    | none =>
      let st := (collectLoop env.msgId (actualTimeout timeout) env.events initCollect).1
      let outputText := assembleOutput st
      (s, .ok { command := code,
                status := if st.errorOccurred then .error else .success,
                exit_code := if st.errorOccurred then 1 else 0,
                stdout := outputText,
                stderr := if st.errorOccurred then outputText else "" })

/-- Python `str.strip()` whitespace predicate (ASCII whitespace). -/
def pyIsSpace (c : Char) : Bool :=
  c = ' ' || c = '\t' || c = '\n' || c = '\r' || c = '\x0b' || c = '\x0c'

/-- Python `str.strip()`: drop whitespace from both ends. -/
def pyStrip (s : String) : String :=
  String.mk (((s.data.dropWhile pyIsSpace).reverse.dropWhile pyIsSpace).reverse)

/-- `ToolResult` from the data model: tool name, execution status, output,
optional error message. -/
structure ToolResult where
  toolName : String
  status : ExecutionStatus
  output : String
  error : Option String
deriving DecidableEq, Repr

/-- Environment of one `PythonExecutor.execute` call: whether staging the
script into the container raises, and the outcome of the
`sandbox_context.execute_command('python /tmp/...')` call (which either
raises or returns a `CommandResult`). -/
structure PyExecEnv where
  writeError : Option String
  runOutcome : Except String CommandResult
deriving Repr

/-- `PythonExecutor.execute`
(`src/ms_enclave/sandbox/tools/sandbox_tools/python_executor.py`, lines
37-75).  Empty code (after `strip()`) returns the `No code provided` error
result before any sandbox interaction.  Otherwise the script is staged and
run; an exception anywhere in the `try` block yields an
`Execution failed: ...` error result, and the `finally` clause issues the
`rm -f` cleanup command.  The second component lists the commands executed
in the sandbox, in order. -/
def pythonExecutorExecute (code : String) (scriptId : String) (env : PyExecEnv) :
    ToolResult × List String :=
  let scriptPath := "/tmp/exec_script_" ++ scriptId ++ ".py"
  if (pyStrip code).isEmpty then
    ({ toolName := "python_executor", status := .error, output := "",
       error := some "No code provided" }, [])
  else
    let cleanupCmd := "rm -f " ++ scriptPath
    match env.writeError with
    | some e =>
      ({ toolName := "python_executor", status := .error, output := "",
         error := some ("Execution failed: " ++ e) }, [cleanupCmd])
    | none =>
      let runCmd := "python " ++ scriptPath
      match env.runOutcome with
      | .error e =>
        ({ toolName := "python_executor", status := .error, output := "",
           error := some ("Execution failed: " ++ e) }, [runCmd, cleanupCmd])
      | .ok r =>
        ({ toolName := "python_executor",
           status := if r.exit_code = 0 then .success else .error,
           output := r.stdout,
           error := if r.stderr.isEmpty then none else some r.stderr },
         [runCmd, cleanupCmd])

/-- Python `int(x)` on a number modelled as a rational: truncation toward
zero. -/
def pyInt (q : ℚ) : ℤ :=
  if 0 ≤ q then ⌊q⌋ else ⌈q⌉

/-- The fields of `DockerSandboxConfig` as consumed by
`DockerSandbox._create_container` (the model class itself sits outside the
sandbox core; the field set and optionality are exactly those the source
dereferences).  `cpu_limit` (fractional cores) is modelled as a rational.
Empty collections and Python `None` are both falsy under the source's
`if self.config.x:` guards, so collections are plain lists with `[]` for
absent. -/
structure DockerSandboxConfig where
  image : String
  workingDir : String
  envVars : List (String × String)
  command : Option String
  memoryLimit : Option String
  cpuLimit : Option ℚ
  volumes : List (String × String × String)
  ports : List (String × String × Nat)
  networkEnabled : Bool
  network : Option String
  privileged : Bool
  removeOnExit : Bool
deriving DecidableEq, Repr

/-- The keyword arguments passed to `client.containers.create(**...)` by
`_create_container`; `none` means the key is absent from the dict. -/
structure ContainerCreateArgs where
  image : String
  name : String
  workingDir : String
  environment : List (String × String)
  detach : Bool
  tty : Bool
  stdinOpen : Bool
  command : Option String
  memLimit : Option String
  cpuQuota : Option ℤ
  cpuPeriod : Option ℤ
  volumes : Option (List (String × String × String))
  ports : Option (List (String × String × Nat))
  networkMode : Option String
  network : Option String
  privileged : Bool
deriving DecidableEq, Repr

/-- `DockerSandbox._create_container`
(`src/ms_enclave/sandbox/boxes/docker_sandbox.py`, lines 155-203), the pure
part: the `container_config` dict built from the config and the sandbox id.
Each `if self.config.x:` guard is Python truthiness.  The cpu quota is
`int(cpu_limit * 100000)` with period `100000`; networking disabled forces
`network_mode = 'none'`, otherwise a truthy named network is passed;
`privileged` is always passed. -/
def createContainerArgs (cfg : DockerSandboxConfig) (id : String) : ContainerCreateArgs :=
  { image := cfg.image
    name := "sandbox-" ++ id
    workingDir := cfg.workingDir
    environment := cfg.envVars
    detach := true
    tty := true
    stdinOpen := true
    command := if pyTruthyStr cfg.command then cfg.command else none
    memLimit := if pyTruthyStr cfg.memoryLimit then cfg.memoryLimit else none
    cpuQuota :=
      match cfg.cpuLimit with
      | some q => if q ≠ 0 then some (pyInt (q * 100000)) else none
      | none => none
    cpuPeriod :=
      match cfg.cpuLimit with
      | some q => if q ≠ 0 then some 100000 else none
      | none => none
    volumes := if cfg.volumes.isEmpty then none else some cfg.volumes
    ports := if cfg.ports.isEmpty then none else some cfg.ports
    networkMode := if !cfg.networkEnabled then some "none" else none
    network :=
      if cfg.networkEnabled && pyTruthyStr cfg.network then cfg.network else none
    privileged := cfg.privileged }

/-- A concrete docker sandbox state before `start`: no client, no container. -/
def freshDocker : DockerState :=
  { status := SandboxStatus.stopped, metadataError := none,
    metadataContainerId := none, client := false, container := none }

/-- A concrete `start` environment in which every engine step succeeds but
tool binding fails. -/
def envToolBindFail : StartEnv :=
  { clientInitError := none, imageExists := true, pullError := none,
    createError := none, newContainerId := 7, startError := none,
    becomesRunning := true, initToolsError := some "tool bind failed" }

/-- A concrete started notebook sandbox state. -/
def nbRunning : NotebookState :=
  { status := SandboxStatus.running, metadataError := none,
    metadataContainerId := some 1, client := true, container := some 1,
    kernelId := some "k1", ws := some 0, baseUrl := some "http://127.0.0.1:8888" }

/-- A notebook execution environment in which no kernel message arrives
before the deadline. -/
def nbEnvSilent : NotebookExecEnv :=
  { msgId := "m", sendError := none, events := [] }

/-- A notebook execution environment in which the first `recv` raises. -/
def nbEnvRecvFail : NotebookExecEnv :=
  { msgId := "m", sendError := none, events := [(0, RecvEvent.recvRaises "connection reset")] }

/-- A notebook execution environment delivering an `error` message and then
`idle` for the request's `msg_id`. -/
def nbEnvKernelError : NotebookExecEnv :=
  { msgId := "m", sendError := none,
    events := [(1, RecvEvent.msg ⟨some "m", KBody.errorMsg ["Traceback", "ZeroDivisionError"]⟩),
               (2, RecvEvent.msg ⟨some "m", KBody.statusMsg "idle"⟩)] }

/-- A concrete whitespace-only code string. -/
def blankCode : String := "  \n\t  "

/-- A python-executor environment whose staging and exec calls succeed. -/
def pyEnvSample : PyExecEnv :=
  { writeError := none,
    runOutcome := .ok { command := "", status := ExecutionStatus.success, exit_code := 0,
                        stdout := "", stderr := "" } }

/-- A cleanup environment in which no engine call raises. -/
def cleanEnv : CleanupEnv :=
  { removeError := none, stopError := none, closeError := none,
    wsCloseError := none, kernelDeleteError := none }

/-- A concrete docker sandbox configuration exercising every optional field. -/
def cfgSample : DockerSandboxConfig :=
  { image := "python:3.11-slim", workingDir := "/workspace",
    envVars := [("A", "1")], command := some "sleep infinity",
    memoryLimit := some "512m", cpuLimit := some ((1 : ℚ) / 2),
    volumes := [("/h", "/data", "rw")], ports := [("8888/tcp", "127.0.0.1", 8888)],
    networkEnabled := false, network := none, privileged := false,
    removeOnExit := true }

end MsEnclave

namespace MsEnclave

/-- Helper: with a container handle, `execute_command` always returns a
result (every exception path inside is caught). -/
theorem executeCommand_some_isOk
    (c : Nat) (cmd : String) (timeout : Option Nat) (env : ExecEnv) :
    (executeCommand (some c) cmd timeout env).isOk = true := by
  unfold executeCommand
  rcases Nat.lt_or_ge env.duration (actualTimeout timeout) with h | h
  · rw [if_neg (by omega)]
    cases env.outcome <;> rfl
  · rw [if_pos (by omega)]
    rfl

/-- Helper: with a container handle, an elapsed wall yields the timeout
result. -/
theorem executeCommand_some_timeout
    (c : Nat) (cmd : String) (timeout : Option Nat) (env : ExecEnv)
    (h : actualTimeout timeout ≤ env.duration) :
    executeCommand (some c) cmd timeout env =
      .ok { command := cmd, status := .timeout, exit_code := -1, stdout := "",
            stderr := "Command timed out after " ++ toString (actualTimeout timeout)
              ++ " seconds" } := by
  unfold executeCommand
  rw [if_pos h]

/-- C3: with a container handle present, `execute_command` never raises: a
timed-out wall yields `CommandResult{status=timeout, exit_code=-1}`, a
raising engine exec yields `CommandResult{status=error, exit_code=-1,
stderr=msg}`, and a completed exec yields status `success` exactly when the
exit code is `0` (and `error` otherwise). -/
theorem executeCommand_with_container_never_raises
    (c : Nat) (cmd : String) (timeout : Option Nat) (env : ExecEnv) :
    (executeCommand (some c) cmd timeout env).isOk = true
    ∧ (actualTimeout timeout ≤ env.duration →
        executeCommand (some c) cmd timeout env =
          .ok { command := cmd, status := .timeout, exit_code := -1, stdout := "",
                stderr := "Command timed out after " ++ toString (actualTimeout timeout)
                  ++ " seconds" })
    ∧ (∀ msg, env.duration < actualTimeout timeout → env.outcome = .raises msg →
        executeCommand (some c) cmd timeout env =
          .ok { command := cmd, status := .error, exit_code := -1, stdout := "",
                stderr := msg })
    ∧ (∀ code o1 o2 r, env.duration < actualTimeout timeout →
        env.outcome = .returns code o1 o2 →
        executeCommand (some c) cmd timeout env = .ok r →
        ((r.status = .success ↔ code = 0) ∧ (r.status = .success ∨ r.status = .error))) := by
  refine ⟨executeCommand_some_isOk c cmd timeout env,
          executeCommand_some_timeout c cmd timeout env, ?_, ?_⟩
  · intro msg hlt hout
    unfold executeCommand
    rw [if_neg (by omega), hout]
  · intro code o1 o2 r hlt hout hr
    unfold executeCommand at hr
    rw [if_neg (by omega), hout] at hr
    simp only [Except.ok.injEq] at hr
    subst hr
    by_cases hc : code = 0
    · simp [hc]
    · simp [hc]

/-- C3 witness: concrete instantiation at a completed exec with exit code 0. -/
theorem executeCommand_with_container_never_raises_witness :
    (executeCommand (some 1) "ls" none { duration := 2, outcome := .returns 0 none none }).isOk
      = true :=
  (executeCommand_with_container_never_raises 1 "ls" none
    { duration := 2, outcome := .returns 0 none none }).1

/-- C4 counterexample: with `timeout = 0` and an exec that takes 1 s (so any
0-second deadline would have elapsed), `execute_command` returns a `success`
result, not a `timeout` one: `timeout or 30` treats `0` as unset. -/
theorem executeCommand_timeout_zero_counterexample :
    executeCommand (some 1) "echo hi" (some 0)
        { duration := 1, outcome := .returns 0 (some "hi\n") none } =
      .ok { command := "echo hi", status := .success, exit_code := 0, stdout := "hi\n",
            stderr := "" }
    ∧ ExecutionStatus.success ≠ ExecutionStatus.timeout := by
  constructor
  · rfl
  · decide

/-- C4 amended: calling `execute_command` with `timeout 0` is identical to
calling it with no timeout — the default 30 s wall applies (Python
`timeout or 30` treats `0` as falsy) — it does not raise, and the result has
status `timeout` exactly when the exec outlives the 30 s wall. -/
theorem executeCommand_timeout_zero_defaults_to_thirty
    (c : Nat) (cmd : String) (env : ExecEnv) :
    executeCommand (some c) cmd (some 0) env = executeCommand (some c) cmd none env
    ∧ (executeCommand (some c) cmd (some 0) env).isOk = true
    ∧ (30 ≤ env.duration →
        ∃ r, executeCommand (some c) cmd (some 0) env = .ok r ∧ r.status = .timeout)
    ∧ (env.duration < 30 →
        ∀ r, executeCommand (some c) cmd (some 0) env = .ok r → r.status ≠ .timeout) := by
  have htv : actualTimeout (some 0) = 30 := rfl
  refine ⟨rfl, executeCommand_some_isOk c cmd (some 0) env, ?_, ?_⟩
  · intro h
    exact ⟨_, executeCommand_some_timeout c cmd (some 0) env (by rw [htv]; omega), rfl⟩
  · intro h r hr
    unfold executeCommand at hr
    rw [if_neg (by rw [htv]; omega)] at hr
    cases hout : env.outcome with
    | raises msg =>
      rw [hout] at hr
      simp only [Except.ok.injEq] at hr
      subst hr
      simp
    | returns code o1 o2 =>
      rw [hout] at hr
      simp only [Except.ok.injEq] at hr
      subst hr
      by_cases hc : code = 0 <;> simp [hc]

/-- C4 amended witness: concrete instantiation. -/
theorem executeCommand_timeout_zero_defaults_to_thirty_witness :
    executeCommand (some 1) "sleep 60" (some 0) { duration := 60, outcome := .returns 0 none none }
      = executeCommand (some 1) "sleep 60" none { duration := 60, outcome := .returns 0 none none } :=
  (executeCommand_timeout_zero_defaults_to_thirty 1 "sleep 60"
    { duration := 60, outcome := .returns 0 none none }).1

/-- C1 counterexample: when every engine step succeeds but tool binding
fails, `start` returns with status `error` and the reason in metadata, yet
the engine client is still held and the created container handle is still
present — the partially-acquired resources are NOT released before `start`
returns, refuting the claim. -/
theorem startSandbox_release_claim_counterexample :
    startFails "python:3.11-slim" envToolBindFail = true
    ∧ (startSandbox freshDocker "python:3.11-slim" envToolBindFail).status = SandboxStatus.error
    ∧ (startSandbox freshDocker "python:3.11-slim" envToolBindFail).metadataError
        = some "tool bind failed"
    ∧ (startSandbox freshDocker "python:3.11-slim" envToolBindFail).client = true
    ∧ (startSandbox freshDocker "python:3.11-slim" envToolBindFail).container = some 7 :=
  ⟨rfl, rfl, rfl, rfl, rfl⟩

/-- C1 amended: if any step of `start` fails, the sandbox status is `error`
and the failure reason is stored in the metadata map — but `start` releases
nothing: the engine client remains acquired whenever its acquisition
succeeded, and the container handle remains set whenever creation succeeded
(release is deferred to `cleanup`). -/
theorem startSandbox_failure_sets_error_and_retains_resources
    (s : DockerState) (image : String) (env : StartEnv)
    (h : startFails image env = true) :
    (startSandbox s image env).status = SandboxStatus.error
    ∧ (startSandbox s image env).metadataError.isSome = true
    ∧ (env.clientInitError = none → (startSandbox s image env).client = true)
    ∧ (env.clientInitError.isSome = true → (startSandbox s image env).client = s.client)
    ∧ (env.clientInitError = none → ensureImageError image env = none →
        env.createError = none →
        (startSandbox s image env).container = some env.newContainerId)
    ∧ (env.clientInitError.isSome = true ∨ (ensureImageError image env).isSome = true
        ∨ env.createError.isSome = true →
        (startSandbox s image env).container = s.container) := by
  unfold startFails at h
  unfold startSandbox startFail
  cases hc : env.clientInitError with
  | some e => simp [hc]
  | none =>
    cases hi : ensureImageError image env with
    | some e => simp [hc, hi]
    | none =>
      cases hcr : env.createError with
      | some e => simp [hc, hi, hcr]
      | none =>
        cases hs : startContainerError env with
        | some e => simp [hc, hi, hcr, hs]
        | none =>
          cases ht : env.initToolsError with
          | some e => simp [hc, hi, hcr, hs, ht]
          | none => simp [hc, hi, hcr, hs, ht] at h

/-- C1 amended witness: concrete instantiation at the tool-binding failure
environment. -/
theorem startSandbox_failure_sets_error_witness :
    startFails "python:3.11-slim" envToolBindFail = true
    ∧ (startSandbox freshDocker "python:3.11-slim" envToolBindFail).status
        = SandboxStatus.error :=
  ⟨rfl, (startSandbox_failure_sets_error_and_retains_resources freshDocker "python:3.11-slim"
    envToolBindFail rfl).1⟩

/-- Helper: full characterization of `DockerSandbox.cleanup`: it always
returns (never raises), clears the container and client handles, and issues
force-remove or 5 s-grace stop for a present container followed by the
client close. -/
theorem dockerCleanup_eq (r : Bool) (s : DockerState) (env : CleanupEnv) :
    dockerCleanup r s env =
      .ok ({ s with container := none, client := false },
           (s.container.toList.map
              (fun c => if r then EngineOp.removeForce c else EngineOp.stopContainer c 5))
             ++ (if s.client then [EngineOp.closeClient] else [])) := by
  cases s with
  | mk st me mc cl co =>
    cases co <;> cases cl <;> cases r <;> simp [dockerCleanup]

/-- Helper: a docker state with no container and no client cleans up to
itself with no engine operations. -/
theorem dockerCleanup_clean (r : Bool) (d : DockerState) (env2 : CleanupEnv)
    (hco : d.container = none) (hcl : d.client = false) :
    dockerCleanup r d env2 = .ok (d, []) := by
  rw [dockerCleanup_eq, hco, hcl]
  cases d with
  | mk st me mc cl co =>
    simp only at hco hcl
    subst hco
    subst hcl
    rfl

/-- Helper: the Jupyter cleanup prefix either clears the websocket, keeps
the docker fields, and leaves the kernel-id/base-url guard falsy on its
result, or is the identity on an already-clean state. -/
theorem jupyterCleanupPart_shape (s : NotebookState) :
    (jupyterCleanupPart s).1.ws = none
    ∧ (jupyterCleanupPart s).1.toDockerState = s.toDockerState
    ∧ (pyTruthyStr (jupyterCleanupPart s).1.kernelId
        && pyTruthyStr (jupyterCleanupPart s).1.baseUrl) = false := by
  cases s with
  | mk dst k w b =>
    cases w <;> cases k <;>
      simp [jupyterCleanupPart, pyTruthyStr] <;>
        split <;> simp_all [pyTruthyStr]

/-- Helper: an already-clean Jupyter state (no websocket, falsy guard) is a
fixed point of the Jupyter cleanup prefix, with no operations. -/
theorem jupyterCleanupPart_clean (d : NotebookState)
    (hw : d.ws = none)
    (hg : (pyTruthyStr d.kernelId && pyTruthyStr d.baseUrl) = false) :
    jupyterCleanupPart d = (d, []) := by
  unfold jupyterCleanupPart
  rw [hw]
  simp [hg]

/-- Helper: a notebook state with nothing left to release cleans up to
itself with no engine operations. -/
theorem notebookCleanup_clean (r : Bool) (d : NotebookState) (env2 : CleanupEnv)
    (hw : d.ws = none)
    (hg : (pyTruthyStr d.kernelId && pyTruthyStr d.baseUrl) = false)
    (hco : d.container = none) (hcl : d.client = false) :
    notebookCleanup r d env2 = .ok (d, []) := by
  unfold notebookCleanup
  rw [jupyterCleanupPart_clean d hw hg]
  dsimp only
  rw [dockerCleanup_clean r d.toDockerState env2 hco hcl]
  rfl

/-- Helper: `JupyterDockerSandbox.cleanup` never raises, and the resulting
state has no websocket, no container, no client, and a falsy
kernel-id/base-url guard. -/
theorem notebookCleanup_shape (r : Bool) (ns : NotebookState) (env : CleanupEnv) :
    ∃ d ops, notebookCleanup r ns env = .ok (d, ops)
      ∧ d.ws = none ∧ d.container = none ∧ d.client = false
      ∧ (pyTruthyStr d.kernelId && pyTruthyStr d.baseUrl) = false := by
  obtain ⟨hw, hdst, hg⟩ := jupyterCleanupPart_shape ns
  unfold notebookCleanup
  dsimp only
  rw [dockerCleanup_eq]
  refine ⟨_, _, rfl, ?_, ?_, ?_, ?_⟩ <;> simp [hw, hg]

/-- C5: `cleanup` never raises for both the docker sandbox and the notebook
subclass; a present container is force-removed when `remove_on_exit` and
otherwise stopped with 5 s grace, and the engine client is dropped; and a
second consecutive `cleanup` performs no engine operations and leaves the
state unchanged. -/
theorem cleanup_idempotent_never_raises
    (r : Bool) (s : DockerState) (ns : NotebookState) (env env2 : CleanupEnv) :
    (dockerCleanup r s env).isOk = true
    ∧ (notebookCleanup r ns env).isOk = true
    ∧ (∀ c, s.container = some c →
        ∀ d ops, dockerCleanup r s env = .ok (d, ops) →
          (r = true → EngineOp.removeForce c ∈ ops)
          ∧ (r = false → EngineOp.stopContainer c 5 ∈ ops)
          ∧ d.container = none ∧ d.client = false)
    ∧ (∀ d ops, dockerCleanup r s env = .ok (d, ops) →
        dockerCleanup r d env2 = .ok (d, []))
    ∧ (∀ d ops, notebookCleanup r ns env = .ok (d, ops) →
        notebookCleanup r d env2 = .ok (d, [])) := by
  obtain ⟨nd, nops, hnb, hnw, hnco, hncl, hng⟩ := notebookCleanup_shape r ns env
  refine ⟨by rw [dockerCleanup_eq]; rfl, by rw [hnb]; rfl, ?_, ?_, ?_⟩
  · intro c hc d ops hd
    rw [dockerCleanup_eq] at hd
    simp only [Except.ok.injEq, Prod.mk.injEq] at hd
    obtain ⟨hd1, hd2⟩ := hd
    subst hd1
    subst hd2
    rw [hc]
    refine ⟨fun hr => ?_, fun hr => ?_, rfl, rfl⟩
    · subst hr; simp
    · subst hr; simp
  · intro d ops hd
    rw [dockerCleanup_eq] at hd
    simp only [Except.ok.injEq, Prod.mk.injEq] at hd
    obtain ⟨hd1, _⟩ := hd
    subst hd1
    exact dockerCleanup_clean r _ env2 rfl rfl
  · intro d ops hd
    rw [hnb] at hd
    simp only [Except.ok.injEq, Prod.mk.injEq] at hd
    obtain ⟨hd1, _⟩ := hd
    subst hd1
    exact notebookCleanup_clean r nd env2 hnw hng hnco hncl

/-- C5 witness: concrete instantiation at a running notebook state with
`remove_on_exit` set. -/
theorem cleanup_idempotent_never_raises_witness :
    (dockerCleanup true freshDocker cleanEnv).isOk = true :=
  (cleanup_idempotent_never_raises true freshDocker nbRunning cleanEnv cleanEnv).1

/-- C10: with no container handle, `execute_command` raises
`RuntimeError('Container is not running')` instead of returning a
`CommandResult`. -/
theorem executeCommand_no_container_raises
    (cmd : String) (timeout : Option Nat) (env : ExecEnv) :
    executeCommand none cmd timeout env = .error "Container is not running" := rfl

/-- C2 counterexample: with a live kernel, when no message arrives before the
deadline the collection loop exits on the deadline and `execute_python_code`
returns a result with status `success` (exit code 0), not `timeout`; and
when the first websocket receive raises, the loop exits on the receive error
and the returned status is again `success`, not `error`. -/
theorem executePythonCode_timeout_claim_counterexample :
    (collectLoop "m" 30 nbEnvSilent.events initCollect).2 = LoopExit.deadline
    ∧ (executePythonCode nbRunning "print(1)" none nbEnvSilent).2
        = .ok { command := "print(1)", status := ExecutionStatus.success, exit_code := 0,
                stdout := "", stderr := "" }
    ∧ (collectLoop "m" 30 nbEnvRecvFail.events initCollect).2 = LoopExit.recvError
    ∧ (executePythonCode nbRunning "print(1)" none nbEnvRecvFail).2
        = .ok { command := "print(1)", status := ExecutionStatus.success, exit_code := 0,
                stdout := "", stderr := "" }
    ∧ ExecutionStatus.success ≠ ExecutionStatus.timeout
    ∧ ExecutionStatus.success ≠ ExecutionStatus.error := by
  exact ⟨rfl, rfl, rfl, rfl, by decide, by decide⟩

/-- C2 amended: with a live kernel and websocket, `execute_python_code`
never returns status `timeout`: the returned status is `error` exactly when
sending the request raised or the kernel reported an `error` message before
the loop ended, and `success` otherwise — reaching the deadline or a
websocket receive error merely stops collection without affecting the
status. -/
theorem executePythonCode_never_timeout_status
    (s : NotebookState) (code : String) (timeout : Option Nat) (env : NotebookExecEnv)
    (hws : s.ws.isSome = true) (hk : pyTruthyStr s.kernelId = true) :
    ∃ cr, (executePythonCode s code timeout env).2 = .ok cr
      ∧ cr.status ≠ ExecutionStatus.timeout
      ∧ (cr.status = ExecutionStatus.error ∨ cr.status = ExecutionStatus.success)
      ∧ (cr.status = ExecutionStatus.error ↔
          (env.sendError.isSome = true
            ∨ (collectLoop env.msgId (actualTimeout timeout) env.events
                initCollect).1.errorOccurred = true)) := by
  cases hw : s.ws with
  | none => rw [hw] at hws; exact absurd hws (by simp)
  | some w =>
    cases hse : env.sendError with
    | some e =>
      exact ⟨{ command := code, status := .error, exit_code := 1, stdout := "",
               stderr := "Execution failed: " ++ e },
             by simp [executePythonCode, hw, hk, hse],
             fun hcon => ExecutionStatus.noConfusion hcon,
             Or.inl rfl, by simp [hse]⟩
    | none =>
      rcases Bool.eq_false_or_eq_true
          ((collectLoop env.msgId (actualTimeout timeout) env.events
            initCollect).1.errorOccurred) with herr | herr
      · exact ⟨{ command := code, status := .error, exit_code := 1,
                 stdout := assembleOutput (collectLoop env.msgId (actualTimeout timeout)
                   env.events initCollect).1,
                 stderr := assembleOutput (collectLoop env.msgId (actualTimeout timeout)
                   env.events initCollect).1 },
               by simp [executePythonCode, hw, hk, hse, herr],
               fun hcon => ExecutionStatus.noConfusion hcon,
               Or.inl rfl, by simp [hse, herr]⟩
      · exact ⟨{ command := code, status := .success, exit_code := 0,
                 stdout := assembleOutput (collectLoop env.msgId (actualTimeout timeout)
                   env.events initCollect).1,
                 stderr := "" },
               by simp [executePythonCode, hw, hk, hse, herr],
               fun hcon => ExecutionStatus.noConfusion hcon,
               Or.inr rfl, by simp [hse, herr]⟩

/-- C2 amended witness: concrete instantiation at a kernel-error trace. -/
theorem executePythonCode_never_timeout_status_witness :
    nbRunning.ws.isSome = true
    ∧ (∃ cr, (executePythonCode nbRunning "1/0" none nbEnvKernelError).2 = .ok cr
        ∧ cr.status ≠ ExecutionStatus.timeout
        ∧ (cr.status = ExecutionStatus.error ∨ cr.status = ExecutionStatus.success)
        ∧ (cr.status = ExecutionStatus.error ↔
            (nbEnvKernelError.sendError.isSome = true
              ∨ (collectLoop nbEnvKernelError.msgId (actualTimeout none)
                  nbEnvKernelError.events initCollect).1.errorOccurred = true))) :=
  ⟨rfl, executePythonCode_never_timeout_status nbRunning "1/0" none nbEnvKernelError rfl rfl⟩

/-- C9: `execute_python_code` returns the sandbox state unchanged — in
particular `kernel_id`, `ws`, `base_url`, `container` and `status` are
preserved, so successive execute calls are served by the same long-lived
kernel over the same websocket. -/
theorem executePythonCode_preserves_session
    (s : NotebookState) (code : String) (timeout : Option Nat) (env : NotebookExecEnv) :
    (executePythonCode s code timeout env).1 = s
    ∧ (executePythonCode s code timeout env).1.kernelId = s.kernelId
    ∧ (executePythonCode s code timeout env).1.ws = s.ws
    ∧ (executePythonCode s code timeout env).1.baseUrl = s.baseUrl
    ∧ (executePythonCode s code timeout env).1.container = s.container
    ∧ (executePythonCode s code timeout env).1.status = s.status := by
  have h : (executePythonCode s code timeout env).1 = s := by
    unfold executePythonCode
    split
    · rfl
    · split <;> rfl
  rw [h]
  exact ⟨rfl, rfl, rfl, rfl, rfl, rfl⟩

/-- C6: the `SandboxType` enumeration in the source has exactly two members
(`DOCKER`, `DUMMY`), yet the notebook sandbox registration references the
attribute `DOCKER_NOTEBOOK`, which is not a member — so not every registered
sandbox implementation is keyed by a member of the enumeration (the attribute
access raises `AttributeError` when the notebook module is imported). -/
theorem sandboxType_missing_notebook_member :
    sandboxTypeMemberNames.length = 2
    ∧ sandboxTypeMemberNames = ["DOCKER", "DUMMY"]
    ∧ "DOCKER_NOTEBOOK" ∈ registeredSandboxKeyAttrs
    ∧ "DOCKER_NOTEBOOK" ∉ sandboxTypeMemberNames
    ∧ ¬ (∀ k ∈ registeredSandboxKeyAttrs, k ∈ sandboxTypeMemberNames) := by
  refine ⟨rfl, rfl, by decide, by decide, ?_⟩
  intro hall
  exact absurd (hall "DOCKER_NOTEBOOK" (by decide)) (by decide)

/-- C7: `python_executor` with code whose `strip()` is empty returns
`ToolResult{status=error, error="No code provided"}` and executes no command
in the sandbox. -/
theorem pythonExecutor_empty_code_rejected
    (code : String) (scriptId : String) (env : PyExecEnv)
    (h : (pyStrip code).isEmpty = true) :
    pythonExecutorExecute code scriptId env =
      ({ toolName := "python_executor", status := ExecutionStatus.error, output := "",
         error := some "No code provided" }, []) := by
  unfold pythonExecutorExecute
  simp [h]

/-- C7 witness: concrete instantiation at a whitespace-only code string. -/
theorem pythonExecutor_empty_code_rejected_witness :
    (pyStrip blankCode).isEmpty = true
    ∧ pythonExecutorExecute blankCode "abc" pyEnvSample =
        ({ toolName := "python_executor", status := ExecutionStatus.error, output := "",
           error := some "No code provided" }, []) :=
  ⟨by decide, pythonExecutor_empty_code_rejected blankCode "abc" pyEnvSample (by decide)⟩

/-- C8: the container-create arguments derived from a config: name
`sandbox-<id>`, tty, open stdin, detached; cpu quota `int(cpu_limit*100000)`
with period 100000 when `cpu_limit` is set (truthy), and absent otherwise;
`network_mode='none'` when networking is disabled; memory limit, volumes,
ports, named network, command override applied exactly when truthy in the
config; privileged passed through. -/
theorem createContainerArgs_matches_config (cfg : DockerSandboxConfig) (id : String) :
    (createContainerArgs cfg id).name = "sandbox-" ++ id
    ∧ (createContainerArgs cfg id).tty = true
    ∧ (createContainerArgs cfg id).stdinOpen = true
    ∧ (createContainerArgs cfg id).detach = true
    ∧ (createContainerArgs cfg id).image = cfg.image
    ∧ (createContainerArgs cfg id).workingDir = cfg.workingDir
    ∧ (createContainerArgs cfg id).environment = cfg.envVars
    ∧ (∀ q, cfg.cpuLimit = some q → q ≠ 0 →
        (createContainerArgs cfg id).cpuQuota = some (pyInt (q * 100000))
        ∧ (createContainerArgs cfg id).cpuPeriod = some 100000)
    ∧ (pyTruthyRat cfg.cpuLimit = false →
        (createContainerArgs cfg id).cpuQuota = none
        ∧ (createContainerArgs cfg id).cpuPeriod = none)
    ∧ (cfg.networkEnabled = false → (createContainerArgs cfg id).networkMode = some "none")
    ∧ (cfg.networkEnabled = true → (createContainerArgs cfg id).networkMode = none)
    ∧ (createContainerArgs cfg id).memLimit
        = (if pyTruthyStr cfg.memoryLimit then cfg.memoryLimit else none)
    ∧ (createContainerArgs cfg id).volumes
        = (if cfg.volumes.isEmpty then none else some cfg.volumes)
    ∧ (createContainerArgs cfg id).ports
        = (if cfg.ports.isEmpty then none else some cfg.ports)
    ∧ (createContainerArgs cfg id).network
        = (if cfg.networkEnabled && pyTruthyStr cfg.network then cfg.network else none)
    ∧ (createContainerArgs cfg id).command
        = (if pyTruthyStr cfg.command then cfg.command else none)
    ∧ (createContainerArgs cfg id).privileged = cfg.privileged := by
  refine ⟨rfl, rfl, rfl, rfl, rfl, rfl, rfl, ?_, ?_, ?_, ?_, rfl, rfl, rfl, rfl, rfl, rfl⟩
  · intro q hq hq0
    constructor
    · show (match cfg.cpuLimit with
        | some q => if q ≠ 0 then some (pyInt (q * 100000)) else none
        | none => none) = some (pyInt (q * 100000))
      rw [hq]
      simp [hq0]
    · show (match cfg.cpuLimit with
        | some q => if q ≠ 0 then some ((100000 : ℤ)) else none
        | none => none) = some 100000
      rw [hq]
      simp [hq0]
  · intro h
    cases hc : cfg.cpuLimit with
    | none =>
      constructor
      · show (match cfg.cpuLimit with
          | some q => if q ≠ 0 then some (pyInt (q * 100000)) else none
          | none => none) = none
        rw [hc]
      · show (match cfg.cpuLimit with
          | some q => if q ≠ 0 then some ((100000 : ℤ)) else none
          | none => none) = none
        rw [hc]
    | some q =>
      rw [hc] at h
      simp only [pyTruthyRat, decide_eq_false_iff_not, Decidable.not_not] at h
      constructor
      · show (match cfg.cpuLimit with
          | some q => if q ≠ 0 then some (pyInt (q * 100000)) else none
          | none => none) = none
        rw [hc]
        simp [h]
      · show (match cfg.cpuLimit with
          | some q => if q ≠ 0 then some ((100000 : ℤ)) else none
          | none => none) = none
        rw [hc]
        simp [h]
  · intro h
    show (if !cfg.networkEnabled then some "none" else none) = some "none"
    rw [h]
    rfl
  · intro h
    show (if !cfg.networkEnabled then some "none" else none) = none
    rw [h]
    rfl

/-- C8 witness: concrete instantiation, including the cpu quota for a
half-core limit. -/
theorem createContainerArgs_matches_config_witness :
    cfgSample.cpuLimit = some ((1 : ℚ) / 2)
    ∧ (createContainerArgs cfgSample "ab").name = "sandbox-ab"
    ∧ (createContainerArgs cfgSample "ab").cpuQuota = some (pyInt (((1 : ℚ) / 2) * 100000)) := by
  obtain ⟨hname, _, _, _, _, _, _, hcpu, _⟩ :=
    createContainerArgs_matches_config cfgSample "ab"
  exact ⟨rfl, hname, (hcpu ((1 : ℚ) / 2) rfl (by norm_num)).1⟩

end MsEnclave
